import Mathlib

/-!
Verification development for the FluxBill backend.

The repository consists of four Python files:
  * `models.py`   — the four persisted record types (Customer, Invoice,
    Subscription, Payment);
  * `billing_route.py` — the CRUD/pay/seed routes over those records;
  * `main.py`     — the assistant: JSON extraction from a model reply,
    coercion into a `Command`, guard-rail validation, and the voice endpoint;
  * `db.py`       — session plumbing (out of scope; modelled by explicit
    state passing of a `Store` value).

Every definition below is a shallow embedding of the corresponding Python
function; the store is passed explicitly, the auto-increment primary key of
`Payment` is modelled by a counter in the store, and wall-clock timestamps
are passed in as explicit `Nat` arguments.
-/

namespace FluxBill

/-! ### Python string primitives

`str.strip`, `str.lower` and the substring test `in` as used by
`billing_route._match` and `main.plan_command`.  Strings are handled through
their underlying character lists. -/

/-- Characters removed by Python `str.strip()` with no argument. -/
def pyIsSpace (c : Char) : Bool :=
  c = ' ' || c = '\t' || c = '\n' || c = '\r' || c = Char.ofNat 11 || c = Char.ofNat 12

/-- `str.strip()` on the character list: drop whitespace at both ends. -/
def pyStripL (l : List Char) : List Char :=
  ((l.dropWhile pyIsSpace).reverse.dropWhile pyIsSpace).reverse

/-- Python `s.strip()`. -/
def pyStrip (s : String) : String := ⟨pyStripL s.data⟩

/-- Python `s.lower()` (ASCII case folding, which covers every string the
routes compare). -/
def pyLower (s : String) : String := ⟨s.data.map Char.toLower⟩

/-- Contiguous-sublist test on character lists, the semantics of Python's
`needle in haystack` on strings. -/
def isSubstr (n : List Char) : List Char → Bool
  | [] => n.isEmpty
  | c :: t => n.isPrefixOf (c :: t) || isSubstr n t

/-- Python `needle in haystack` on strings. -/
def pyIn (needle hay : String) : Bool := isSubstr needle.data hay.data

/-! ### Data model (`models.py`)

Dates are triples year/month/day; `datetime` timestamps are opaque `Nat`
values supplied by the environment. -/

structure PyDate where
  year : Nat
  month : Nat
  day : Nat
deriving DecidableEq, Repr

structure Customer where
  id : String
  name : String
  tier : String := "SMB"
  invoices : Int := 0
  status : String := "new"
  created_at : Nat := 0
deriving DecidableEq, Repr

structure Invoice where
  id : String
  customer : String
  amount : Int
  currency : String := "INR"
  status : String := "sent"
  due : PyDate
  created : PyDate
  method : String := "—"
deriving DecidableEq, Repr

structure Subscription where
  id : String
  plan : String
  customer : String
  mrr : Int
  status : String := "active"
deriving DecidableEq, Repr

/-- `Payment.id` is an auto-assigned integer primary key; the store's
`nextPaymentId` counter models the database's auto-increment. -/
structure Payment where
  id : Nat
  invoice_id : String
  amount : Int
  method : String
  paid_at : Nat
deriving DecidableEq, Repr

/-- The relational store: one table per record type plus the auto-increment
counter for `Payment.id`. -/
structure Store where
  invoices : List Invoice
  customers : List Customer
  subscriptions : List Subscription
  payments : List Payment
  nextPaymentId : Nat
deriving DecidableEq, Repr

def emptyStore : Store := ⟨[], [], [], [], 1⟩

/-- An `HTTPException(status_code, detail)`. -/
structure HErr where
  status : Nat
  detail : String
deriving DecidableEq, Repr

/-! ### Billing routes (`billing_route.py`)

Each route returns the HTTP outcome together with the store after the
request: a raised `HTTPException` leaves the store untouched (the session is
discarded without commit), a successful handler returns the committed
store. -/

/-- `_match(q, *values)`: true when the lowercased, stripped query occurs in
one of the given field values (each lowercased). -/
def matchq (q : String) (values : List String) : Bool :=
  let ql := pyLower (pyStrip q)
  values.any (fun v => pyIn ql (pyLower v))

/-- `GET /api/invoices?q=` — `list_invoices`.  `if not q` is true for an
absent query and for the empty string. -/
def list_invoices (s : Store) (q : Option String) : List Invoice :=
  match q with
  | none => s.invoices
  | some qs =>
    if qs = "" then s.invoices
    else s.invoices.filter (fun r => matchq qs [r.id, r.customer, r.status, r.method])

/-- `GET /api/customers?q=` — `list_customers`. -/
def list_customers (s : Store) (q : Option String) : List Customer :=
  match q with
  | none => s.customers
  | some qs =>
    if qs = "" then s.customers
    else s.customers.filter (fun r => matchq qs [r.id, r.name, r.tier, r.status])

/-- `GET /api/subscriptions?q=` — `list_subscriptions`. -/
def list_subscriptions (s : Store) (q : Option String) : List Subscription :=
  match q with
  | none => s.subscriptions
  | some qs =>
    if qs = "" then s.subscriptions
    else s.subscriptions.filter (fun r => matchq qs [r.id, r.plan, r.customer, r.status])

/-- `POST /api/invoices` — `create_invoice`: 409 when the primary key is
already present, otherwise add and commit. -/
def create_invoice (s : Store) (inv : Invoice) : Except HErr Invoice × Store :=
  match s.invoices.find? (fun i => i.id == inv.id) with
  | some _ => (.error ⟨409, "Invoice id already exists"⟩, s)
  | none => (.ok inv, { s with invoices := s.invoices ++ [inv] })

/-- `POST /api/customers` — `create_customer`. -/
def create_customer (s : Store) (c : Customer) : Except HErr Customer × Store :=
  match s.customers.find? (fun i => i.id == c.id) with
  | some _ => (.error ⟨409, "Customer id already exists"⟩, s)
  | none => (.ok c, { s with customers := s.customers ++ [c] })

/-- Response body of a successful pay: `{"ok": True, "invoice_id": ...}`. -/
structure PayResp where
  ok : Bool
  invoice_id : String
deriving DecidableEq, Repr

/-- `POST /api/invoices/{invoice_id}/pay` — `pay_invoice`.  Looks the invoice
up by primary key, mutates its `status` and `method`, adds one `Payment` row
carrying the invoice's amount and the supplied method, and commits both
writes together (a single state transition here).  `now` is the
`datetime.utcnow()` the database stamps on the payment. -/
def pay_invoice (s : Store) (invoice_id method : String) (now : Nat) :
    Except HErr PayResp × Store :=
  match s.invoices.find? (fun i => i.id == invoice_id) with
  | none => (.error ⟨404, "Invoice not found"⟩, s)
  | some inv =>
    let inv' : Invoice := { inv with status := "paid", method := method }
    let payment : Payment := ⟨s.nextPaymentId, invoice_id, inv.amount, method, now⟩
    (.ok ⟨true, invoice_id⟩,
      { s with
        invoices := s.invoices.map (fun i => if i.id == invoice_id then inv' else i),
        payments := s.payments ++ [payment],
        nextPaymentId := s.nextPaymentId + 1 })

/-- Response body of `POST /api/seed`. -/
structure SeedResp where
  ok : Bool
  seeded : Bool
deriving DecidableEq, Repr

/-- The fixed demo invoices inserted by `seed_if_empty`. -/
def demoInvoices : List Invoice :=
  [ ⟨"INV-10428", "Apex Retail Pvt Ltd", 48900, "INR", "paid", ⟨2025,12,2⟩, ⟨2025,11,25⟩, "UPI"⟩,
    ⟨"INV-10429", "BlueSky Logistics", 125000, "INR", "overdue", ⟨2025,12,8⟩, ⟨2025,11,28⟩, "Card"⟩,
    ⟨"INV-10430", "Nimbus Clinics", 76000, "INR", "sent", ⟨2025,12,20⟩, ⟨2025,12,1⟩, "NetBanking"⟩ ]

/-- The fixed demo subscriptions inserted by `seed_if_empty`. -/
def demoSubscriptions : List Subscription :=
  [ ⟨"SUB-2201", "Growth", "Nimbus Clinics", 6999, "active"⟩,
    ⟨"SUB-2202", "Starter", "Orchid Education", 1999, "active"⟩ ]

/-- The fixed demo customers inserted by `seed_if_empty` (`created_at` is the
server timestamp the ORM fills in; it is not observed by any route). -/
def demoCustomers : List Customer :=
  [ ⟨"CUST-901", "Apex Retail Pvt Ltd", "Mid-market", 12, "healthy", 0⟩,
    ⟨"CUST-902", "BlueSky Logistics", "Enterprise", 21, "at_risk", 0⟩ ]

/-- `POST /api/seed` — `seed_if_empty`.  The guard is
`session.exec(select(Invoice)).first()`: it inspects the invoice table only. -/
def seed_if_empty (s : Store) : SeedResp × Store :=
  match s.invoices.head? with
  | some _ => (⟨true, false⟩, s)
  | none =>
    (⟨true, true⟩,
      { s with
        invoices := s.invoices ++ demoInvoices,
        subscriptions := s.subscriptions ++ demoSubscriptions,
        customers := s.customers ++ demoCustomers })

/-! ### Assistant (`main.py`)

JSON values as produced by `json.loads`: numbers keep their raw token (the
planner never does arithmetic on them, only truthiness checks). -/

inductive Jv where
  | str : String → Jv
  | num : String → Jv
  | bool : Bool → Jv
  | null : Jv
  | arr : List Jv → Jv
  | obj : List (String × Jv) → Jv

/-- A raw JSON number token denotes zero exactly when every digit of its
mantissa (the part before any exponent) is `0`. -/
def numIsZero (raw : String) : Bool :=
  (raw.data.takeWhile (fun c => c ≠ 'e' ∧ c ≠ 'E')).all (fun c => !c.isDigit || c = '0')

/-- Python truthiness of a JSON value: `""`, `0`, `False`, `None`, `[]` and
the empty dict are falsy. -/
def jvTruthy : Jv → Bool
  | .str s => s ≠ ""
  | .num raw => !numIsZero raw
  | .bool b => b
  | .null => false
  | .arr l => !l.isEmpty
  | .obj l => !l.isEmpty

/-- `d.get(k)` on the key/value list of a JSON object (keys are unique when
the object came from `json.loads`). -/
def listLookup (kvs : List (String × Jv)) (k : String) : Option Jv :=
  match kvs.find? (fun kv => kv.1 == k) with
  | some kv => some kv.2
  | none => none

/-- `d[k] = v` on the key/value list of a JSON object. -/
def setKey (kvs : List (String × Jv)) (k : String) (v : Jv) : List (String × Jv) :=
  kvs.map (fun kv => if kv.1 == k then (kv.1, v) else kv)

/-- The fixed action set `ACTIONS` of `main.py`. -/
def ACTIONS : List String :=
  [ "click", "type", "none",
    "create_invoice", "delete_invoice", "update_invoice", "filter_invoices",
    "create_customer", "delete_customer", "update_customer",
    "create_subscription", "delete_subscription", "update_subscription" ]

/-- The fixed target set `TARGETS` of `main.py`. -/
def TARGETS : List String :=
  [ "nav.dashboard", "nav.invoices", "nav.subscriptions", "nav.customers",
    "nav.reports", "nav.settings",
    "field.search", "action.createInvoice", "action.collectPayment" ]

/-- The pydantic `Command` model, with its field defaults. -/
structure Command where
  action : String := "none"
  target : Option String := none
  args : List (String × Jv) := []
  reply : String := "ok"

/-- The only Python exception the modelled planner tail can raise:
`.strip()` called on a non-string value of `args["text"]`. -/
inductive PyErr where
  | attributeError
deriving DecidableEq, Repr

/-- The fallback `Command(action="none", reply=r)`. -/
def fallbackCmd (r : String) : Command := { action := "none", reply := r }

/-- `text = (cmd.args.get("text") or "").strip()`: an absent or falsy value
becomes the empty string, a truthy string is stripped, and a truthy
non-string raises `AttributeError` at the `.strip()` call. -/
def textOrEmpty : Option Jv → Except PyErr String
  | none => .ok ""
  | some v =>
    if jvTruthy v then
      match v with
      | .str s => .ok (pyStrip s)
      | _ => .error .attributeError
    else .ok ""

/-- The guard-rail block of `plan_command` (the lines after the pydantic
coercion succeeded): action allow-list, target allow-list, and the
`action == "type"` text check, which re-writes `args["text"]` to its
stripped form on acceptance. -/
def guardrails (cmd : Command) : Except PyErr Command :=
  if !(ACTIONS.contains cmd.action) then
    .ok (fallbackCmd "That action is not supported.")
  else if (match cmd.target with | some t => !(TARGETS.contains t) | none => false) then
    .ok (fallbackCmd "That UI target is not supported.")
  else if cmd.action = "type" then
    match textOrEmpty (listLookup cmd.args "text") with
    | .error e => .error e
    | .ok text =>
      if cmd.target ≠ some "field.search" ∨ text = "" then
        .ok (fallbackCmd "Tell me what to search for.")
      else
        .ok { cmd with args := setKey cmd.args "text" (.str text) }
  else .ok cmd

/-- `Command(**obj)`: pydantic coercion of a JSON object into a `Command`.
Absent fields take their defaults, `null` is accepted for the optional
`target`, a value of the wrong shape raises `ValidationError` (`none`
here); unknown keys are ignored. -/
def toCommand (kvs : List (String × Jv)) : Option Command :=
  match listLookup kvs "action" with
  | some (.str a) => toCommandTarget kvs a
  | none => toCommandTarget kvs "none"
  | some _ => none
where
  toCommandTarget (kvs : List (String × Jv)) (a : String) : Option Command :=
    match listLookup kvs "target" with
    | some (.str t) => toCommandArgs kvs a (some t)
    | some .null => toCommandArgs kvs a none
    | none => toCommandArgs kvs a none
    | some _ => none
  toCommandArgs (kvs : List (String × Jv)) (a : String) (t : Option String) :
      Option Command :=
    match listLookup kvs "args" with
    | some (.obj o) => toCommandReply kvs a t o
    | none => toCommandReply kvs a t []
    | some _ => none
  toCommandReply (kvs : List (String × Jv)) (a : String) (t : Option String)
      (o : List (String × Jv)) : Option Command :=
    match listLookup kvs "reply" with
    | some (.str r) => some ⟨a, t, o, r⟩
    | none => some ⟨a, t, o, "ok"⟩
    | some _ => none

/-! ### JSON parsing (`json.loads`) and `_extract_json`

A fuel-indexed recursive-descent parser for the JSON grammar; `json.loads`
on the whole text, then the `re.search` bracket-span fallback. -/

/-- The `\x7b` character. -/
def lbrace : Char := Char.ofNat 123

/-- The `\x7d` character. -/
def rbrace : Char := Char.ofNat 125

/-- The double-quote character. -/
def dquote : Char := Char.ofNat 34

/-- The backslash character. -/
def bslash : Char := Char.ofNat 92

/-- JSON insignificant whitespace. -/
def jsonWs (c : Char) : Bool := c = ' ' || c = '\t' || c = '\n' || c = '\r'

def skipWs (cs : List Char) : List Char := cs.dropWhile jsonWs

/-- Value of a hexadecimal digit. -/
def hexVal (c : Char) : Option Nat :=
  if '0' ≤ c ∧ c ≤ '9' then some (c.toNat - 48)
  else if 'a' ≤ c ∧ c ≤ 'f' then some (c.toNat - 87)
  else if 'A' ≤ c ∧ c ≤ 'F' then some (c.toNat - 55)
  else none

/-- Single-character JSON string escapes. -/
def escChar (c : Char) : Option Char :=
  if c = dquote then some dquote
  else if c = bslash then some bslash
  else if c = '/' then some '/'
  else if c = 'b' then some (Char.ofNat 8)
  else if c = 'f' then some (Char.ofNat 12)
  else if c = 'n' then some '\n'
  else if c = 'r' then some '\r'
  else if c = 't' then some '\t'
  else none

/-- Parse the body of a JSON string (the opening quote already consumed),
returning the decoded string and the remaining input. -/
def parseStrBody : Nat → List Char → Option (String × List Char)
  | 0, _ => none
  | Nat.succ f, cs =>
    match cs with
    | [] => none
    | c :: rest =>
      if c = dquote then some ("", rest)
      else if c = bslash then
        match rest with
        | [] => none
        | e :: r2 =>
          match escChar e with
          | some ec => (parseStrBody f r2).map (fun p => (⟨ec :: p.1.data⟩, p.2))
          | none =>
            if e = 'u' then
              match r2 with
              | a :: b :: c2 :: d :: r3 =>
                match hexVal a, hexVal b, hexVal c2, hexVal d with
                | some ha, some hb, some hc, some hd =>
                  (parseStrBody f r3).map
                    (fun p => (⟨Char.ofNat (((ha*16+hb)*16+hc)*16+hd) :: p.1.data⟩, p.2))
                | _, _, _, _ => none
              | _ => none
            else none
      else (parseStrBody f rest).map (fun p => (⟨c :: p.1.data⟩, p.2))

/-- Characters a JSON number token may contain. -/
def isNumChar (c : Char) : Bool :=
  c.isDigit || c = '-' || c = '+' || c = '.' || c = 'e' || c = 'E'

/-- Integer part of a JSON number: `0`, or a nonzero digit followed by
digits. -/
def numIntPart : List Char → Option (List Char)
  | [] => none
  | c :: r =>
    if c = '0' then some r
    else if c.isDigit then some (r.dropWhile Char.isDigit)
    else none

/-- Optional fractional part `.digits`. -/
def numFracPart : List Char → Option (List Char)
  | [] => some []
  | c :: r =>
    if c = '.' then
      match r with
      | d :: _ => if d.isDigit then some (r.dropWhile Char.isDigit) else none
      | [] => none
    else some (c :: r)

/-- Optional exponent part `(e|E)(+|-)?digits`. -/
def numExpPart : List Char → Option (List Char)
  | [] => some []
  | c :: r =>
    if c = 'e' ∨ c = 'E' then
      let r2 := match r with
        | s :: rr => if s = '+' ∨ s = '-' then rr else s :: rr
        | [] => []
      match r2 with
      | d :: _ => if d.isDigit then some (r2.dropWhile Char.isDigit) else none
      | [] => none
    else some (c :: r)

/-- A token is a well-formed JSON number. -/
def validNum (l : List Char) : Bool :=
  let l1 := match l with
    | c :: r => if c = '-' then r else c :: r
    | [] => []
  match numIntPart l1 with
  | none => false
  | some r2 =>
    match numFracPart r2 with
    | none => false
    | some r3 =>
      match numExpPart r3 with
      | some [] => true
      | _ => false

/-- Parse a JSON number token at the head of the input, keeping its raw
text. -/
def parseNum (cs : List Char) : Option (Jv × List Char) :=
  let tok := cs.takeWhile isNumChar
  if tok ≠ [] ∧ validNum tok then some (.num ⟨tok⟩, cs.drop tok.length)
  else none

mutual

/-- Parse one JSON value. -/
def parseVal : Nat → List Char → Option (Jv × List Char)
  | 0, _ => none
  | Nat.succ f, cs =>
    match skipWs cs with
    | [] => none
    | c :: rest =>
      if c = dquote then (parseStrBody f rest).map (fun p => (.str p.1, p.2))
      else if c = lbrace then
        match skipWs rest with
        | c2 :: r2 =>
          if c2 = rbrace then some (.obj [], r2)
          else (parseMembers f (c2 :: r2)).map (fun p => (.obj p.1, p.2))
        | [] => none
      else if c = '[' then
        match skipWs rest with
        | c2 :: r2 =>
          if c2 = ']' then some (.arr [], r2)
          else (parseItems f (c2 :: r2)).map (fun p => (.arr p.1, p.2))
        | [] => none
      else if c = 't' then
        match rest with
        | 'r' :: 'u' :: 'e' :: r2 => some (.bool true, r2)
        | _ => none
      else if c = 'f' then
        match rest with
        | 'a' :: 'l' :: 's' :: 'e' :: r2 => some (.bool false, r2)
        | _ => none
      else if c = 'n' then
        match rest with
        | 'u' :: 'l' :: 'l' :: r2 => some (.null, r2)
        | _ => none
      else if c = '-' ∨ c.isDigit then parseNum (c :: rest)
      else none

/-- Parse the members of a JSON object (positioned at the first key, the
opening brace consumed), including the closing brace. -/
def parseMembers : Nat → List Char → Option (List (String × Jv) × List Char)
  | 0, _ => none
  | Nat.succ f, cs =>
    match skipWs cs with
    | [] => none
    | c :: rest =>
      if c = dquote then
        match parseStrBody f rest with
        | none => none
        | some (k, r1) =>
          match skipWs r1 with
          | ':' :: r2 =>
            match parseVal f r2 with
            | none => none
            | some (v, r3) =>
              match skipWs r3 with
              | c3 :: r4 =>
                if c3 = ',' then
                  (parseMembers f r4).map (fun p => ((k, v) :: p.1, p.2))
                else if c3 = rbrace then some ([(k, v)], r4)
                else none
              | [] => none
          | _ => none
      else none

/-- Parse the items of a JSON array (positioned at the first item, the
opening bracket consumed), including the closing bracket. -/
def parseItems : Nat → List Char → Option (List Jv × List Char)
  | 0, _ => none
  | Nat.succ f, cs =>
    match parseVal f cs with
    | none => none
    | some (v, r1) =>
      match skipWs r1 with
      | c :: r2 =>
        if c = ',' then (parseItems f r2).map (fun p => (v :: p.1, p.2))
        else if c = ']' then some ([v], r2)
        else none
      | [] => none

end

/-- `json.loads(s)`: parse one value and require only whitespace to remain. -/
def json_loads (s : String) : Option Jv :=
  match parseVal (s.length + 1) s.data with
  | some (v, rest) => if skipWs rest = [] then some v else none
  | none => none

/-- `re.search(r"\x7b[\s\S]*\x7d", text)`: the leftmost-greedy match runs
from the first opening brace to the last closing brace, provided the latter
comes strictly after the former. -/
def bracketSpan (s : String) : Option String :=
  let cs := s.data
  match cs.findIdx? (fun c => c = lbrace) with
  | none => none
  | some i =>
    match cs.reverse.findIdx? (fun c => c = rbrace) with
    | none => none
    | some jr =>
      let j := cs.length - 1 - jr
      if i < j then some ⟨(cs.drop i).take (j - i + 1)⟩ else none

/-- `_extract_json(text)`: whole-text parse first (kept only when it yields
an object), then parse of the bracket span (kept only when it yields an
object). -/
def extract_json (s : String) : Option (List (String × Jv)) :=
  match json_loads s with
  | some (Jv.obj kvs) => some kvs
  | _ =>
    match bracketSpan s with
    | none => none
    | some sub =>
      match json_loads sub with
      | some (Jv.obj kvs) => some kvs
      | _ => none

/-- The tail of `plan_command` once the model's reply `content` is in hand:
extraction, pydantic coercion, guard rails.  Each recoverable failure
degrades to a fallback `none` command; only the guard-rail `AttributeError`
escapes. -/
def plan_from_content (content : String) : Except PyErr Command :=
  match extract_json content with
  | none =>
    .ok (fallbackCmd "I could not understand. Try: \"open invoices\", \"search apex\".")
  | some kvs =>
    match toCommand kvs with
    | none => .ok (fallbackCmd "I got an invalid command format. Try again.")
    | some cmd => guardrails cmd

/-- Response body of the voice endpoint. -/
structure VoiceResp where
  transcript : String
  command : Command

/-- The post-transcription logic of `POST /assistant/voice`: an empty
transcript short-circuits to the "could not hear" command without invoking
the planner (abstracted here as the function `plan`). -/
def assistant_voice (transcript : String) (plan : String → Command) : VoiceResp :=
  if transcript = "" then
    ⟨"", fallbackCmd "I could not hear anything. Try again."⟩
  else ⟨transcript, plan transcript⟩

/-! ### Reachable store states

The exposed operations of the billing API, their effect on the store, and
the states reachable from the empty store. -/

/-- One call to an exposed billing route.  The list/get routes are read-only
and included for completeness. -/
inductive Op where
  | createInvoice : Invoice → Op
  | createCustomer : Customer → Op
  | payInvoice : String → String → Nat → Op
  | seed : Op
  | listInvoicesOp : Option String → Op
  | listCustomersOp : Option String → Op
  | listSubscriptionsOp : Option String → Op
deriving DecidableEq

/-- Effect of one operation on the store. -/
def execOp (s : Store) : Op → Store
  | .createInvoice inv => (create_invoice s inv).2
  | .createCustomer c => (create_customer s c).2
  | .payInvoice i m now => (pay_invoice s i m now).2
  | .seed => (seed_if_empty s).2
  | .listInvoicesOp _ => s
  | .listCustomersOp _ => s
  | .listSubscriptionsOp _ => s

/-- The store after running a trace of operations from the empty store. -/
def run (tr : List Op) : Store := tr.foldl execOp emptyStore

/-- An operation is a pay call. -/
def isPayOp : Op → Bool
  | .payInvoice _ _ _ => true
  | _ => false

/-- The trace contains a pay call on invoice `id`. -/
def paysInTrace (tr : List Op) (id : String) : Prop :=
  ∃ m now, Op.payInvoice id m now ∈ tr

/-- The trace inserted an invoice with identifier `id` that already carried
status `"paid"`: either a `POST /api/invoices` whose body had that status,
or the seed operation (whose demo data contains the paid invoice
`INV-10428`). -/
def insertedPaid (tr : List Op) (id : String) : Prop :=
  (∃ inv, Op.createInvoice inv ∈ tr ∧ inv.id = id ∧ inv.status = "paid") ∨
  (Op.seed ∈ tr ∧ id = "INV-10428")

/-! ## Theorems -/

/-- C1: paying an existing invoice `I` with method `M` acknowledges with the
invoice identifier, sets that invoice's status to `"paid"`, overwrites its
method with `M`, and appends exactly one new `Payment` whose amount is the
invoice's amount at the time of payment and whose method is `M`; the two
writes land in the single committed result store (the other tables are
untouched). -/
theorem C1_pay_invoice_spec (s : Store) (I M : String) (now : Nat) (inv : Invoice)
    (h : s.invoices.find? (fun i => i.id == I) = some inv) :
    (pay_invoice s I M now).1 = .ok ⟨true, I⟩ ∧
    ((pay_invoice s I M now).2).invoices.find? (fun i => i.id == I)
      = some { inv with status := "paid", method := M } ∧
    ((pay_invoice s I M now).2).payments
      = s.payments ++ [⟨s.nextPaymentId, I, inv.amount, M, now⟩] ∧
    ((pay_invoice s I M now).2).customers = s.customers ∧
    ((pay_invoice s I M now).2).subscriptions = s.subscriptions := by
  have hp : (inv.id == I) = true := by
    have hq := List.find?_some (p := fun i : Invoice => i.id == I) h
    simpa using hq
  unfold pay_invoice
  rw [h]
  refine ⟨rfl, ?_, rfl, rfl, rfl⟩
  show (s.invoices.map fun i =>
      if i.id == I then { inv with status := "paid", method := M } else i).find?
      (fun i => i.id == I) = some { inv with status := "paid", method := M }
  rw [List.find?_map]
  have hcomp : ((fun i : Invoice => i.id == I) ∘
      (fun i => if i.id == I then { inv with status := "paid", method := M } else i))
      = fun i : Invoice => i.id == I := by
    funext i
    by_cases hi : (i.id == I) = true
    · simp [Function.comp, hi, hp]
    · simp [Function.comp, hi]
  rw [hcomp, h]
  have hid : inv.id = I := by simpa using hp
  simp [hid]

def wInvC1 : Invoice := ⟨"INV-1", "Acme", 100, "INR", "sent", ⟨2025,1,1⟩, ⟨2025,1,1⟩, "—"⟩

def wStoreC1 : Store := ⟨[wInvC1], [], [], [], 1⟩

/-- Witness for C1 at a concrete one-invoice store. -/
theorem C1_pay_invoice_spec_witness :
    (pay_invoice wStoreC1 "INV-1" "Card" 5).1 = .ok ⟨true, "INV-1"⟩ ∧
    ((pay_invoice wStoreC1 "INV-1" "Card" 5).2).invoices.find? (fun i => i.id == "INV-1")
      = some { wInvC1 with status := "paid", method := "Card" } ∧
    ((pay_invoice wStoreC1 "INV-1" "Card" 5).2).payments
      = wStoreC1.payments ++ [⟨wStoreC1.nextPaymentId, "INV-1", wInvC1.amount, "Card", 5⟩] ∧
    ((pay_invoice wStoreC1 "INV-1" "Card" 5).2).customers = wStoreC1.customers ∧
    ((pay_invoice wStoreC1 "INV-1" "Card" 5).2).subscriptions = wStoreC1.subscriptions :=
  C1_pay_invoice_spec wStoreC1 "INV-1" "Card" 5 wInvC1 (by rfl)

/-- C3: paying a non-existent invoice fails with 404 "Invoice not found" and
returns the store unchanged, so in particular no `Payment` row is created. -/
theorem C3_pay_notfound (s : Store) (I M : String) (now : Nat)
    (h : s.invoices.find? (fun i => i.id == I) = none) :
    pay_invoice s I M now = (.error ⟨404, "Invoice not found"⟩, s) := by
  unfold pay_invoice
  rw [h]

/-- Witness for C3 at the empty store. -/
theorem C3_pay_notfound_witness :
    pay_invoice emptyStore "INV-9" "UPI" 3 = (.error ⟨404, "Invoice not found"⟩, emptyStore) :=
  C3_pay_notfound emptyStore "INV-9" "UPI" 3 (by rfl)

/-- C4: inserting a record whose identifier is already present fails with
409 and leaves the store — hence the original record — unchanged: stated as
two independent implications, one for an invoice-id collision through
`create_invoice` and one for a customer-id collision through
`create_customer`, so each kind of duplicate is settled on every store that
exhibits it. -/
theorem C4_insert_conflict (s : Store) (inv : Invoice) (c : Customer) :
    ((∃ inv0, s.invoices.find? (fun i => i.id == inv.id) = some inv0) →
      create_invoice s inv = (.error ⟨409, "Invoice id already exists"⟩, s)) ∧
    ((∃ c0, s.customers.find? (fun i => i.id == c.id) = some c0) →
      create_customer s c = (.error ⟨409, "Customer id already exists"⟩, s)) := by
  constructor
  · rintro ⟨inv0, hi⟩
    unfold create_invoice
    rw [hi]
  · rintro ⟨c0, hc⟩
    unfold create_customer
    rw [hc]

def wCustC4 : Customer := ⟨"CUST-1", "Acme", "SMB", 0, "new", 0⟩

def wStoreC4cust : Store := ⟨[], [wCustC4], [], [], 1⟩

def wInvC4 : Invoice := ⟨"INV-1", "Other Co", 999, "INR", "draft", ⟨2026,1,1⟩, ⟨2026,1,1⟩, "—"⟩

/-- Witness for C4: an invoice-id collision in a store with no customers at
all, and a customer-id collision in a store with no invoices at all. -/
theorem C4_insert_conflict_witness :
    create_invoice wStoreC1 wInvC4 = (.error ⟨409, "Invoice id already exists"⟩, wStoreC1) ∧
    create_customer wStoreC4cust ⟨"CUST-1", "Acme 2", "SMB", 1, "new", 9⟩
      = (.error ⟨409, "Customer id already exists"⟩, wStoreC4cust) :=
  ⟨(C4_insert_conflict wStoreC1 wInvC4 ⟨"CUST-1", "Acme 2", "SMB", 1, "new", 9⟩).1
      ⟨wInvC1, by rfl⟩,
   (C4_insert_conflict wStoreC4cust wInvC4 ⟨"CUST-1", "Acme 2", "SMB", 1, "new", 9⟩).2
      ⟨wCustC4, by rfl⟩⟩

/-! ### Query-filter lemmas -/

/-- The empty needle is a substring of everything. -/
theorem isSubstr_nil (l : List Char) : isSubstr [] l = true := by
  cases l <;> simp [isSubstr, List.isPrefixOf]

/-- A query whose stripped-and-lowercased form is empty matches every record
(each entity's searchable field list is non-empty). -/
theorem matchq_of_empty (q : String) (h : pyLower (pyStrip q) = "") (v : String)
    (vs : List String) : matchq q (v :: vs) = true := by
  unfold matchq
  rw [h]
  simp [pyIn, isSubstr_nil]

/-- `matchq` only depends on the stripped, lowercased query. -/
theorem matchq_congr (q1 q2 : String) (h : pyLower (pyStrip q1) = pyLower (pyStrip q2))
    (vals : List String) : matchq q1 vals = matchq q2 vals := by
  unfold matchq
  rw [h]

/-- The common shape of the three list routes: equal normalised queries give
equal filtered results. -/
theorem route_congr {α : Type} (rows : List α) (fields : α → List String)
    (v : α → String) (vs : α → List String) (hf : ∀ r, fields r = v r :: vs r)
    (q1 q2 : String) (h : pyLower (pyStrip q1) = pyLower (pyStrip q2)) :
    (if q1 = "" then rows else rows.filter (fun r => matchq q1 (fields r)))
      = (if q2 = "" then rows else rows.filter (fun r => matchq q2 (fields r))) := by
  by_cases h1 : q1 = ""
  · by_cases h2 : q2 = ""
    · simp [h1, h2]
    · have he : pyLower (pyStrip q2) = "" := by
        rw [← h, h1]
        rfl
      simp only [h1, if_pos rfl, if_neg h2]
      refine (List.filter_eq_self.mpr ?_).symm
      intro r _
      rw [hf r]
      exact matchq_of_empty q2 he (v r) (vs r)
  · by_cases h2 : q2 = ""
    · have he : pyLower (pyStrip q1) = "" := by
        rw [h, h2]
        rfl
      simp only [h2, if_pos rfl, if_neg h1]
      refine List.filter_eq_self.mpr ?_
      intro r _
      rw [hf r]
      exact matchq_of_empty q1 he (v r) (vs r)
    · simp only [if_neg h1, if_neg h2]
      exact List.filter_congr (fun r _ => matchq_congr q1 q2 h (fields r))

/-- C5 counterexample: a store holding a customer but no invoice is not
empty, yet the seed operation still populates the demo dataset and reports
`seeded = true` — the emptiness guard inspects the invoice table only. -/
theorem C5_counterexample :
    (⟨[], [wCustC4], [], [], 1⟩ : Store).customers ≠ [] ∧
    (seed_if_empty ⟨[], [wCustC4], [], [], 1⟩).1.seeded = true ∧
    (seed_if_empty ⟨[], [wCustC4], [], [], 1⟩).2.invoices
      ≠ (⟨[], [wCustC4], [], [], 1⟩ : Store).invoices := by
  refine ⟨by decide, rfl, by decide⟩

/-- C5 (amended): the seed operation populates the fixed demo dataset iff no
invoice record exists; when an invoice exists it inserts nothing and reports
`seeded = false`; and a second seed call is always a no-op reporting
`seeded = false`, so seeding twice never duplicates rows. -/
theorem C5_seed_spec (s : Store) :
    (s.invoices = [] →
      seed_if_empty s = (⟨true, true⟩,
        { s with invoices := s.invoices ++ demoInvoices,
                 subscriptions := s.subscriptions ++ demoSubscriptions,
                 customers := s.customers ++ demoCustomers })) ∧
    (s.invoices ≠ [] → seed_if_empty s = (⟨true, false⟩, s)) ∧
    seed_if_empty (seed_if_empty s).2 = (⟨true, false⟩, (seed_if_empty s).2) := by
  obtain ⟨invs, cs, ss, ps, n⟩ := s
  cases invs with
  | nil =>
    refine ⟨fun _ => rfl, fun hne => absurd rfl hne, rfl⟩
  | cons a t =>
    exact ⟨fun hn => absurd hn (List.cons_ne_nil a t), fun _ => rfl, rfl⟩

/-- Witness for C5 (amended) at the empty store. -/
theorem C5_seed_spec_witness :
    seed_if_empty emptyStore = (⟨true, true⟩,
      { emptyStore with
          invoices := emptyStore.invoices ++ demoInvoices,
          subscriptions := emptyStore.subscriptions ++ demoSubscriptions,
          customers := emptyStore.customers ++ demoCustomers }) ∧
    seed_if_empty (seed_if_empty emptyStore).2
      = (⟨true, false⟩, (seed_if_empty emptyStore).2) :=
  ⟨(C5_seed_spec emptyStore).1 rfl, (C5_seed_spec emptyStore).2.2⟩

/-- C8: two query strings that agree after stripping surrounding whitespace
and lowercasing produce identical result sets on all three list routes. -/
theorem C8_query_normalised (s : Store) (q1 q2 : String)
    (h : pyLower (pyStrip q1) = pyLower (pyStrip q2)) :
    list_invoices s (some q1) = list_invoices s (some q2) ∧
    list_customers s (some q1) = list_customers s (some q2) ∧
    list_subscriptions s (some q1) = list_subscriptions s (some q2) := by
  refine ⟨?_, ?_, ?_⟩
  · show (if q1 = "" then s.invoices
        else s.invoices.filter (fun r => matchq q1 [r.id, r.customer, r.status, r.method]))
      = (if q2 = "" then s.invoices
        else s.invoices.filter (fun r => matchq q2 [r.id, r.customer, r.status, r.method]))
    exact route_congr s.invoices (fun r => [r.id, r.customer, r.status, r.method])
      (fun r => r.id) (fun r => [r.customer, r.status, r.method]) (fun _ => rfl) q1 q2 h
  · show (if q1 = "" then s.customers
        else s.customers.filter (fun r => matchq q1 [r.id, r.name, r.tier, r.status]))
      = (if q2 = "" then s.customers
        else s.customers.filter (fun r => matchq q2 [r.id, r.name, r.tier, r.status]))
    exact route_congr s.customers (fun r => [r.id, r.name, r.tier, r.status])
      (fun r => r.id) (fun r => [r.name, r.tier, r.status]) (fun _ => rfl) q1 q2 h
  · show (if q1 = "" then s.subscriptions
        else s.subscriptions.filter (fun r => matchq q1 [r.id, r.plan, r.customer, r.status]))
      = (if q2 = "" then s.subscriptions
        else s.subscriptions.filter (fun r => matchq q2 [r.id, r.plan, r.customer, r.status]))
    exact route_congr s.subscriptions (fun r => [r.id, r.plan, r.customer, r.status])
      (fun r => r.id) (fun r => [r.plan, r.customer, r.status]) (fun _ => rfl) q1 q2 h

/-- Witness for C8: `"apex"` and `" APEX "` on the seeded store. -/
theorem C8_query_normalised_witness :
    list_invoices (seed_if_empty emptyStore).2 (some "apex")
      = list_invoices (seed_if_empty emptyStore).2 (some " APEX ") ∧
    list_customers (seed_if_empty emptyStore).2 (some "apex")
      = list_customers (seed_if_empty emptyStore).2 (some " APEX ") ∧
    list_subscriptions (seed_if_empty emptyStore).2 (some "apex")
      = list_subscriptions (seed_if_empty emptyStore).2 (some " APEX ") :=
  C8_query_normalised (seed_if_empty emptyStore).2 "apex" " APEX " (by rfl)

/-- C10: a non-empty query consisting only of whitespace does not take the
empty-query short-circuit, but strips to the empty string, which is a
substring of every field; all three list routes therefore return the same
result as an absent query, namely the full unfiltered table. -/
theorem C10_whitespace_query (s : Store) (q : String) (h1 : q ≠ "")
    (h2 : ∀ c ∈ q.data, pyIsSpace c = true) :
    list_invoices s (some q) = list_invoices s none ∧
    list_customers s (some q) = list_customers s none ∧
    list_subscriptions s (some q) = list_subscriptions s none ∧
    list_invoices s none = s.invoices ∧
    list_customers s none = s.customers ∧
    list_subscriptions s none = s.subscriptions := by
  have hstrip : pyLower (pyStrip q) = "" := by
    have hd : q.data.dropWhile pyIsSpace = [] := List.dropWhile_eq_nil_iff.mpr h2
    have hs : pyStrip q = "" := by
      show (⟨pyStripL q.data⟩ : String) = ""
      unfold pyStripL
      rw [hd]
      rfl
    rw [hs]
    rfl
  have key : ∀ {α : Type} (rows : List α) (v : α → String) (vs : α → List String),
      rows.filter (fun r => matchq q (v r :: vs r)) = rows := by
    intro α rows v vs
    exact List.filter_eq_self.mpr (fun r _ => matchq_of_empty q hstrip (v r) (vs r))
  refine ⟨?_, ?_, ?_, rfl, rfl, rfl⟩
  · show (if q = "" then s.invoices
        else s.invoices.filter (fun r => matchq q [r.id, r.customer, r.status, r.method]))
      = s.invoices
    rw [if_neg h1]
    exact key s.invoices (fun r => r.id) (fun r => [r.customer, r.status, r.method])
  · show (if q = "" then s.customers
        else s.customers.filter (fun r => matchq q [r.id, r.name, r.tier, r.status]))
      = s.customers
    rw [if_neg h1]
    exact key s.customers (fun r => r.id) (fun r => [r.name, r.tier, r.status])
  · show (if q = "" then s.subscriptions
        else s.subscriptions.filter (fun r => matchq q [r.id, r.plan, r.customer, r.status]))
      = s.subscriptions
    rw [if_neg h1]
    exact key s.subscriptions (fun r => r.id) (fun r => [r.plan, r.customer, r.status])

/-- Witness for C10: the one-space query on the seeded store. -/
theorem C10_whitespace_query_witness :
    list_invoices (seed_if_empty emptyStore).2 (some " ")
      = list_invoices (seed_if_empty emptyStore).2 none ∧
    list_customers (seed_if_empty emptyStore).2 (some " ")
      = list_customers (seed_if_empty emptyStore).2 none ∧
    list_subscriptions (seed_if_empty emptyStore).2 (some " ")
      = list_subscriptions (seed_if_empty emptyStore).2 none ∧
    list_invoices (seed_if_empty emptyStore).2 none = (seed_if_empty emptyStore).2.invoices ∧
    list_customers (seed_if_empty emptyStore).2 none = (seed_if_empty emptyStore).2.customers ∧
    list_subscriptions (seed_if_empty emptyStore).2 none
      = (seed_if_empty emptyStore).2.subscriptions :=
  C10_whitespace_query (seed_if_empty emptyStore).2 " " (by decide)
    (by intro c hc; simp at hc; rw [hc]; rfl)

/-- C9: a voice request whose transcription is the empty string returns
`transcript = ""` with an action-"none" command carrying a non-empty reply,
and the result does not depend on the planner — the planner is never
invoked. -/
theorem C9_voice_empty (plan : String → Command) :
    assistant_voice "" plan = ⟨"", fallbackCmd "I could not hear anything. Try again."⟩ ∧
    (assistant_voice "" plan).command.action = "none" ∧
    (assistant_voice "" plan).command.reply ≠ "" ∧
    ∀ plan2 : String → Command, assistant_voice "" plan = assistant_voice "" plan2 :=
  ⟨rfl, rfl, by show ("I could not hear anything. Try again." : String) ≠ ""; decide,
    fun _ => rfl⟩

/-- Witness for C9 at a concrete planner function. -/
theorem C9_voice_empty_witness :
    assistant_voice "" (fun _ => fallbackCmd "x")
      = ⟨"", fallbackCmd "I could not hear anything. Try again."⟩ ∧
    (assistant_voice "" (fun _ => fallbackCmd "x")).command.action = "none" ∧
    (assistant_voice "" (fun _ => fallbackCmd "x")).command.reply ≠ "" ∧
    ∀ plan2 : String → Command,
      assistant_voice "" (fun _ => fallbackCmd "x") = assistant_voice "" plan2 :=
  C9_voice_empty (fun _ => fallbackCmd "x")


/-- The acceptance conditions of claim C2, exactly as the spec words them:
action in the fixed action set; target null or in the fixed target set; and,
for action `"type"`, target `"field.search"` with a `"text"` argument that
is a string and non-empty after trimming. -/
def claimCondsB (cmd : Command) : Bool :=
  ACTIONS.contains cmd.action &&
  (match cmd.target with | none => true | some t => TARGETS.contains t) &&
  (!(cmd.action == "type") ||
    (cmd.target == some "field.search" &&
      (match listLookup cmd.args "text" with
       | some (.str s) => !(pyStrip s == "")
       | _ => false)))

/-- C2 counterexample: a candidate whose action is `"type"` with a truthy
non-string `args["text"]` (here the JSON boolean `true`) violates the
acceptance conditions, yet the planner raises `AttributeError` at
`(cmd.args.get("text") or "").strip()` instead of returning the fallback
none command the claim promises. -/
theorem C2_counterexample :
    guardrails ⟨"type", some "field.search", [("text", Jv.bool true)], "ok"⟩
      = .error .attributeError ∧
    claimCondsB ⟨"type", some "field.search", [("text", Jv.bool true)], "ok"⟩ = false :=
  ⟨rfl, rfl⟩

/-- The exact condition under which the guard-rail block raises: the
candidate's action is `"type"`, its target passes the allow-list check (so
control reaches the text check), and `args["text"]` holds a truthy
non-string value, on which `.strip()` raises `AttributeError`. -/
def textArgRaises (args : List (String × Jv)) : Bool :=
  match listLookup args "text" with
  | some (Jv.str _) => false
  | some v => jvTruthy v
  | none => false

def raisesCondB (cmd : Command) : Bool :=
  (cmd.action == "type") &&
  (match cmd.target with | none => true | some u => TARGETS.contains u) &&
  textArgRaises cmd.args

/-- A raised `AttributeError` from the text extraction means `args["text"]`
held a truthy non-string value. -/
theorem textArgRaises_of_error (args : List (String × Jv)) (e : PyErr)
    (h : textOrEmpty (listLookup args "text") = .error e) :
    textArgRaises args = true := by
  unfold textArgRaises
  cases hL : listLookup args "text" with
  | none =>
    rw [hL] at h
    exact absurd h (by simp [textOrEmpty])
  | some v =>
    rw [hL] at h
    by_cases htr : jvTruthy v = true
    · cases v with
      | str s => simp [textOrEmpty, htr] at h
      | num raw => exact htr
      | bool b => exact htr
      | null => exact htr
      | arr l => exact htr
      | obj o => exact htr
    · simp [textOrEmpty, htr] at h

/-- A successful text extraction means `args["text"]` did not hold a truthy
non-string value. -/
theorem textArgRaises_of_ok (args : List (String × Jv)) (text : String)
    (h : textOrEmpty (listLookup args "text") = .ok text) :
    textArgRaises args = false := by
  unfold textArgRaises
  cases hL : listLookup args "text" with
  | none => rfl
  | some v =>
    rw [hL] at h
    cases v with
    | str s => rfl
    | num raw =>
      show jvTruthy (Jv.num raw) = false
      by_cases htr : jvTruthy (Jv.num raw) = true
      · simp [textOrEmpty, htr] at h
      · simpa using htr
    | bool b =>
      show jvTruthy (Jv.bool b) = false
      by_cases htr : jvTruthy (Jv.bool b) = true
      · simp [textOrEmpty, htr] at h
      · simpa using htr
    | null => rfl
    | arr l =>
      show jvTruthy (Jv.arr l) = false
      by_cases htr : jvTruthy (Jv.arr l) = true
      · simp [textOrEmpty, htr] at h
      · simpa using htr
    | obj o =>
      show jvTruthy (Jv.obj o) = false
      by_cases htr : jvTruthy (Jv.obj o) = true
      · simp [textOrEmpty, htr] at h
      · simpa using htr

/-- Both valid-target shapes (absent target, or a target in the allow-list)
share the remaining guard-rail analysis; this helper carries it out. -/
theorem guardrails_valid_target (cmd : Command)
    (hA : ACTIONS.contains cmd.action = true)
    (hT2 : ¬((match cmd.target with
        | some t => !(TARGETS.contains t) | none => false) = true))
    (hB : (match cmd.target with
        | none => true | some u => TARGETS.contains u) = true) :
    (guardrails cmd = .ok cmd → claimCondsB cmd = true) ∧
    (claimCondsB cmd = false → raisesCondB cmd = false →
      ∃ r, guardrails cmd = .ok (fallbackCmd r) ∧ r ≠ "") ∧
    (raisesCondB cmd = true → guardrails cmd = .error .attributeError) := by
  have hA2 : ¬((!(ACTIONS.contains cmd.action)) = true) := by
    rw [hA]; decide
  by_cases hTy : cmd.action = "type"
  · cases hTE : textOrEmpty (listLookup cmd.args "text") with
    | error e =>
      have hg : guardrails cmd = .error e := by
        simp only [guardrails]
        rw [if_neg hA2, if_neg hT2, if_pos hTy, hTE]
      cases e
      have hrc : raisesCondB cmd = true := by
        unfold raisesCondB
        rw [hB, textArgRaises_of_error cmd.args PyErr.attributeError hTE, hTy]
        decide
      refine ⟨?_, ?_, fun _ => hg⟩
      · intro heq
        rw [hg] at heq
        exact absurd heq (by simp)
      · intro _ hrf
        rw [hrc] at hrf
        exact absurd hrf (by decide)
    | ok text =>
      have hrc : raisesCondB cmd = false := by
        unfold raisesCondB
        rw [textArgRaises_of_ok cmd.args text hTE]
        simp
      by_cases hIf : cmd.target ≠ some "field.search" ∨ text = ""
      · have hg : guardrails cmd = .ok (fallbackCmd "Tell me what to search for.") := by
          simp only [guardrails]
          rw [if_neg hA2, if_neg hT2, if_pos hTy, hTE]
          show (if cmd.target ≠ some "field.search" ∨ text = ""
              then Except.ok (fallbackCmd "Tell me what to search for.")
              else Except.ok { cmd with args := setKey cmd.args "text" (Jv.str text) })
            = Except.ok (fallbackCmd "Tell me what to search for.")
          rw [if_pos hIf]
        refine ⟨?_, fun _ _ => ⟨_, hg, by decide⟩, fun hr => ?_⟩
        · intro heq
          rw [hg] at heq
          have hc : fallbackCmd "Tell me what to search for." = cmd := Except.ok.inj heq
          have hn : cmd.action = "none" := by rw [← hc]; rfl
          rw [hTy] at hn
          exact absurd hn (by decide)
        · rw [hrc] at hr
          exact absurd hr (by decide)
      · have hIf2 := hIf
        push_neg at hIf2
        obtain ⟨hFS, hNE⟩ := hIf2
        have hg : guardrails cmd
            = .ok { cmd with args := setKey cmd.args "text" (Jv.str text) } := by
          simp only [guardrails]
          rw [if_neg hA2, if_neg hT2, if_pos hTy, hTE]
          show (if cmd.target ≠ some "field.search" ∨ text = ""
              then Except.ok (fallbackCmd "Tell me what to search for.")
              else Except.ok { cmd with args := setKey cmd.args "text" (Jv.str text) })
            = Except.ok { cmd with args := setKey cmd.args "text" (Jv.str text) }
          rw [if_neg hIf]
        have hlook : ∃ s, listLookup cmd.args "text" = some (.str s) ∧ pyStrip s = text := by
          cases hL : listLookup cmd.args "text" with
          | none =>
            rw [hL] at hTE
            exact absurd (Except.ok.inj hTE).symm hNE
          | some v =>
            rw [hL] at hTE
            by_cases htr : jvTruthy v = true
            · cases v with
              | str s =>
                refine ⟨s, rfl, ?_⟩
                have h2 := hTE
                simp [textOrEmpty, htr] at h2
                exact h2
              | num raw => simp [textOrEmpty, htr] at hTE
              | bool b => simp [textOrEmpty, htr] at hTE
              | null => simp [jvTruthy] at htr
              | arr l => simp [textOrEmpty, htr] at hTE
              | obj o => simp [textOrEmpty, htr] at hTE
            · have ht0 : text = "" := by
                have h2 := hTE
                simp [textOrEmpty, htr] at h2
                first
                | exact h2
                | exact h2.symm
              exact absurd ht0 hNE
        obtain ⟨s, hL, hPS⟩ := hlook
        have hc2 : (cmd.target == some "field.search") = true := by
          rw [hFS]
          exact beq_self_eq_true _
        have hmatch : (match listLookup cmd.args "text" with
            | some (.str u) => !(pyStrip u == "") | _ => false) = true := by
          rw [hL]
          show (!(pyStrip s == "")) = true
          rw [hPS]
          have hb : (text == "") = false := by
            cases hx : text == ""
            · rfl
            · exact absurd (eq_of_beq hx) hNE
          rw [hb]
          rfl
        have hcond : claimCondsB cmd = true := by
          simp only [claimCondsB]
          rw [hA, hB, hc2, hmatch]
          simp
        refine ⟨fun _ => hcond, fun hfalse _ => ?_, fun hr => ?_⟩
        · rw [hcond] at hfalse
          exact absurd hfalse (by decide)
        · rw [hrc] at hr
          exact absurd hr (by decide)
  · have hg : guardrails cmd = .ok cmd := by
      simp only [guardrails]
      rw [if_neg hA2, if_neg hT2, if_neg hTy]
    have hc1 : (cmd.action == "type") = false := by
      cases hx : cmd.action == "type"
      · rfl
      · exact absurd (eq_of_beq hx) hTy
    have hcond : claimCondsB cmd = true := by
      simp only [claimCondsB]
      rw [hA, hB, hc1]
      rfl
    refine ⟨fun _ => hcond, fun hfalse _ => ?_, fun hr => ?_⟩
    · rw [hcond] at hfalse
      exact absurd hfalse (by decide)
    · unfold raisesCondB at hr
      rw [hc1] at hr
      simp at hr

/-- C2 (amended): the planner accepts a candidate command as-is only if its
action is in the fixed action set, its target is null or in the fixed target
set, and, for action `"type"`, its target equals `"field.search"` with a
`"text"` argument that is a string and non-empty after trimming.  A
candidate violating these conditions is replaced by a fallback command with
action `"none"` and a non-empty clarifying reply — with one exception: a
candidate whose action is `"type"`, whose target is null or in the target
set (so control reaches the text check), and whose `args["text"]` holds a
truthy non-string value makes the guard-rail code raise `AttributeError`
instead of returning a fallback. -/
theorem C2_guardrails_spec (cmd : Command) :
    (guardrails cmd = .ok cmd → claimCondsB cmd = true) ∧
    (claimCondsB cmd = false → raisesCondB cmd = false →
      ∃ r, guardrails cmd = .ok (fallbackCmd r) ∧ r ≠ "") ∧
    (raisesCondB cmd = true → guardrails cmd = .error .attributeError) := by
  by_cases hA : ACTIONS.contains cmd.action = true
  · cases hTgt : cmd.target with
    | some t =>
      by_cases hTin : TARGETS.contains t = true
      · have hT2 : ¬((match cmd.target with
            | some t => !(TARGETS.contains t) | none => false) = true) := by
          rw [hTgt]
          show ¬((!(TARGETS.contains t)) = true)
          rw [hTin]
          decide
        have hB : (match cmd.target with
            | none => true | some u => TARGETS.contains u) = true := by
          rw [hTgt]
          exact hTin
        exact guardrails_valid_target cmd hA hT2 hB
      · have hTin' : TARGETS.contains t = false := by
          cases hx : TARGETS.contains t
          · rfl
          · exact absurd hx hTin
        have hA2 : ¬((!(ACTIONS.contains cmd.action)) = true) := by
          rw [hA]; decide
        have hT1 : (match cmd.target with
            | some t => !(TARGETS.contains t) | none => false) = true := by
          rw [hTgt]
          show (!(TARGETS.contains t)) = true
          rw [hTin']
          rfl
        have hg : guardrails cmd = .ok (fallbackCmd "That UI target is not supported.") := by
          simp only [guardrails]
          rw [if_neg hA2, if_pos hT1]
        refine ⟨?_, fun _ _ => ⟨_, hg, by decide⟩, fun hr => ?_⟩
        · intro heq
          rw [hg] at heq
          have hc : fallbackCmd "That UI target is not supported." = cmd := Except.ok.inj heq
          have h0 : cmd.target = none := by rw [← hc]; rfl
          rw [h0] at hTgt
          exact absurd hTgt (by simp)
        · have hBt : (match cmd.target with
              | none => true | some u => TARGETS.contains u) = false := by
            rw [hTgt]
            exact hTin'
          unfold raisesCondB at hr
          rw [hBt] at hr
          simp at hr
    | none =>
      have hT2 : ¬((match cmd.target with
          | some t => !(TARGETS.contains t) | none => false) = true) := by
        rw [hTgt]
        decide
      have hB : (match cmd.target with
          | none => true | some u => TARGETS.contains u) = true := by
        rw [hTgt]
      exact guardrails_valid_target cmd hA hT2 hB
  · have hA' : ACTIONS.contains cmd.action = false := by
      cases hx : ACTIONS.contains cmd.action
      · rfl
      · exact absurd hx hA
    have hA1 : (!(ACTIONS.contains cmd.action)) = true := by
      rw [hA']
      rfl
    have hg : guardrails cmd = .ok (fallbackCmd "That action is not supported.") := by
      simp only [guardrails]
      rw [if_pos hA1]
    refine ⟨?_, fun _ _ => ⟨_, hg, by decide⟩, fun hr => ?_⟩
    · intro heq
      rw [hg] at heq
      have hc : fallbackCmd "That action is not supported." = cmd := Except.ok.inj heq
      have hn : cmd.action = "none" := by rw [← hc]; rfl
      rw [hn] at hA'
      exact absurd hA' (by decide)
    · by_cases hTy : cmd.action = "type"
      · rw [hTy] at hA'
        exact absurd hA' (by decide)
      · have hb : (cmd.action == "type") = false := by
          cases hx : cmd.action == "type"
          · rfl
          · exact absurd (eq_of_beq hx) hTy
        unfold raisesCondB at hr
        rw [hb] at hr
        simp at hr

/-- Witness for C2 (amended): the unsupported action `"dance"` yields a
fallback none command with a non-empty reply, and a `"type"` candidate whose
`args["text"]` is the truthy JSON number `7` makes the guard rails raise. -/
theorem C2_guardrails_spec_witness :
    (∃ r, guardrails ⟨"dance", none, [], "ok"⟩ = .ok (fallbackCmd r) ∧ r ≠ "") ∧
    guardrails ⟨"type", some "field.search", [("text", Jv.num "7")], "ok"⟩
      = .error .attributeError :=
  ⟨(C2_guardrails_spec ⟨"dance", none, [], "ok"⟩).2.1 (by rfl) (by rfl),
   (C2_guardrails_spec
      ⟨"type", some "field.search", [("text", Jv.num "7")], "ok"⟩).2.2 (by rfl)⟩

/-- C7: when neither whole-text JSON parsing nor the bracket-span fallback
yields a JSON object, the planner's reply handling returns the fallback none
command with its non-empty "could not understand" reply — a recoverable
outcome, not a raised error. -/
theorem C7_unparseable_fallback (content : String)
    (h : extract_json content = none) :
    plan_from_content content
      = .ok (fallbackCmd "I could not understand. Try: \"open invoices\", \"search apex\".") ∧
    (fallbackCmd "I could not understand. Try: \"open invoices\", \"search apex\".").action
      = "none" ∧
    (fallbackCmd "I could not understand. Try: \"open invoices\", \"search apex\".").reply
      ≠ "" := by
  refine ⟨?_, rfl, by decide⟩
  unfold plan_from_content
  rw [h]

/-- Witness for C7 at a pure-prose model reply. -/
theorem C7_unparseable_fallback_witness :
    plan_from_content "hello there, no json here."
      = .ok (fallbackCmd "I could not understand. Try: \"open invoices\", \"search apex\".") ∧
    (fallbackCmd "I could not understand. Try: \"open invoices\", \"search apex\".").action
      = "none" ∧
    (fallbackCmd "I could not understand. Try: \"open invoices\", \"search apex\".").reply
      ≠ "" :=
  C7_unparseable_fallback "hello there, no json here." (by rfl)

/-- C6 counterexample: the state reached by the single seed operation holds
invoice INV-10428 with status "paid", yet the trace contains no pay
operation at all — that status was not set by the pay operation. -/
theorem C6_counterexample :
    ((run [Op.seed]).invoices.any (fun i => i.id == "INV-10428" && i.status == "paid"))
      = true ∧
    ([Op.seed].any isPayOp) = false :=
  ⟨rfl, rfl⟩

/-- C6 (amended): in every store state reachable through the exposed
operations, an invoice whose status is "paid" either entered the store
already bearing that status — through invoice creation or the seed demo
data — or had it set by a pay operation on its identifier; no other
operation writes an invoice's status. -/
theorem C6_paid_provenance (tr : List Op) :
    ∀ inv ∈ (run tr).invoices, inv.status = "paid" →
      insertedPaid tr inv.id ∨ paysInTrace tr inv.id := by
  induction tr using List.reverseRecOn with
  | nil =>
    intro inv hmem
    simp [run, emptyStore] at hmem
  | append_singleton l op ih =>
    intro inv hmem hpaid
    have hrun : run (l ++ [op]) = execOp (run l) op := by
      simp [run, List.foldl_append]
    rw [hrun] at hmem
    have liftIns : ∀ a, insertedPaid l a → insertedPaid (l ++ [op]) a := by
      intro a ha
      cases ha with
      | inl hx =>
        obtain ⟨i0, hm, hid, hst⟩ := hx
        exact Or.inl ⟨i0, List.mem_append_left _ hm, hid, hst⟩
      | inr hx =>
        exact Or.inr ⟨List.mem_append_left _ hx.1, hx.2⟩
    have liftPay : ∀ a, paysInTrace l a → paysInTrace (l ++ [op]) a := by
      intro a ha
      obtain ⟨m, now, hm⟩ := ha
      exact ⟨m, now, List.mem_append_left _ hm⟩
    cases op with
    | listInvoicesOp q =>
      exact (ih inv hmem hpaid).imp (liftIns _) (liftPay _)
    | listCustomersOp q =>
      exact (ih inv hmem hpaid).imp (liftIns _) (liftPay _)
    | listSubscriptionsOp q =>
      exact (ih inv hmem hpaid).imp (liftIns _) (liftPay _)
    | createCustomer c =>
      have hsame : (execOp (run l) (Op.createCustomer c)).invoices = (run l).invoices := by
        cases hf : (run l).customers.find? (fun i => i.id == c.id) <;>
          simp [execOp, create_customer, hf]
      rw [hsame] at hmem
      exact (ih inv hmem hpaid).imp (liftIns _) (liftPay _)
    | createInvoice inv0 =>
      cases hf : (run l).invoices.find? (fun i => i.id == inv0.id) with
      | some x =>
        have hsame : execOp (run l) (Op.createInvoice inv0) = run l := by
          simp [execOp, create_invoice, hf]
        rw [hsame] at hmem
        exact (ih inv hmem hpaid).imp (liftIns _) (liftPay _)
      | none =>
        have hinvs : (execOp (run l) (Op.createInvoice inv0)).invoices
            = (run l).invoices ++ [inv0] := by
          simp [execOp, create_invoice, hf]
        rw [hinvs] at hmem
        rcases List.mem_append.mp hmem with hold | hnew
        · exact (ih inv hold hpaid).imp (liftIns _) (liftPay _)
        · have heq : inv = inv0 := List.mem_singleton.mp hnew
          exact Or.inl (Or.inl ⟨inv0, List.mem_append_right _ (List.mem_singleton.mpr rfl),
            by rw [heq], by rw [← heq]; exact hpaid⟩)
    | payInvoice I m now =>
      cases hf : (run l).invoices.find? (fun i => i.id == I) with
      | none =>
        have hsame : execOp (run l) (Op.payInvoice I m now) = run l := by
          simp [execOp, pay_invoice, hf]
        rw [hsame] at hmem
        exact (ih inv hmem hpaid).imp (liftIns _) (liftPay _)
      | some found =>
        have hinvs : (execOp (run l) (Op.payInvoice I m now)).invoices
            = (run l).invoices.map (fun i =>
                if i.id == I then { found with status := "paid", method := m } else i) := by
          simp [execOp, pay_invoice, hf]
        rw [hinvs] at hmem
        rcases List.mem_map.mp hmem with ⟨y, hy, hyeq⟩
        by_cases hyid : (y.id == I) = true
        · have hiv : inv = { found with status := "paid", method := m } := by
            rw [← hyeq]
            simp [hyid]
          have hfid : (found.id == I) = true := by
            simpa using List.find?_some (p := fun i : Invoice => i.id == I) hf
          have hid : inv.id = I := by
            rw [hiv]
            exact eq_of_beq hfid
          refine Or.inr ?_
          rw [hid]
          exact ⟨m, now, List.mem_append_right _ (List.mem_singleton.mpr rfl)⟩
        · have hiv : inv = y := by
            rw [← hyeq]
            simp [hyid]
          rw [hiv]
          rw [hiv] at hpaid
          exact (ih y hy hpaid).imp (liftIns _) (liftPay _)
    | seed =>
      cases hf : (run l).invoices.head? with
      | some x =>
        have hsame : execOp (run l) Op.seed = run l := by
          simp [execOp, seed_if_empty, hf]
        rw [hsame] at hmem
        exact (ih inv hmem hpaid).imp (liftIns _) (liftPay _)
      | none =>
        have hnil : (run l).invoices = [] := by
          cases hx : (run l).invoices with
          | nil => rfl
          | cons a t =>
            rw [hx] at hf
            simp at hf
        have hinvs : (execOp (run l) Op.seed).invoices = demoInvoices := by
          simp [execOp, seed_if_empty, hf, hnil]
        rw [hinvs] at hmem
        have hid : inv.id = "INV-10428" := by
          simp only [demoInvoices, List.mem_cons, List.not_mem_nil, or_false] at hmem
          rcases hmem with h1 | h2 | h3
          · rw [h1]
          · rw [h2] at hpaid
            exact absurd hpaid (by decide)
          · rw [h3] at hpaid
            exact absurd hpaid (by decide)
        exact Or.inl (Or.inr ⟨List.mem_append_right _ (List.mem_singleton.mpr rfl), hid⟩)

/-- Witness for C6 (amended): the paid demo invoice in the seed-only trace. -/
theorem C6_paid_provenance_witness :
    insertedPaid [Op.seed]
      (⟨"INV-10428", "Apex Retail Pvt Ltd", 48900, "INR", "paid",
        ⟨2025,12,2⟩, ⟨2025,11,25⟩, "UPI"⟩ : Invoice).id ∨
    paysInTrace [Op.seed]
      (⟨"INV-10428", "Apex Retail Pvt Ltd", 48900, "INR", "paid",
        ⟨2025,12,2⟩, ⟨2025,11,25⟩, "UPI"⟩ : Invoice).id :=
  C6_paid_provenance [Op.seed]
    ⟨"INV-10428", "Apex Retail Pvt Ltd", 48900, "INR", "paid",
      ⟨2025,12,2⟩, ⟨2025,11,25⟩, "UPI"⟩
    (by decide) (by rfl)


end FluxBill
